import Mathlib

set_option linter.unusedVariables false

/-!
Shallow embedding of `src/include/Kraken/IO/Socket.h`: the `Kraken::Socket<D>`
template class (open / bind / listen / connect / accept / send / receive /
shutdown / pair), its flag enums, and the contracts it consumes from its
collaborators (`File`, `Address<D>`), which are declared in headers that are
not part of this tree and are therefore modelled from the specification.

Each operation of the C++ class makes at most one system call.  The OS is
modelled as an oracle: the outcome of the single underlying call (its return
value, the `errno` it would set on failure, and any out-parameters it writes)
is passed to the Lean function as an explicit argument.  Every operation
returns, alongside its result and updated state, the list of system calls it
actually issued, so that "without invoking the underlying system call" is a
statement about that trace.
-/

namespace Kraken

/-- Linux errno constant `EBUSY` (from `<errno.h>`). -/
def EBUSY : Int := 16

/-- Linux errno constant `EINVAL` (from `<errno.h>`). -/
def EINVAL : Int := 22

/-- Linux errno constant `EBADFD` (from `<errno.h>`). -/
def EBADFD : Int := 77

/-- Linux constant `MSG_OOB` (from `<sys/socket.h>`). -/
def MSG_OOB : Int := 1

/-- Linux constant `MSG_PEEK`. -/
def MSG_PEEK : Int := 2

/-- Linux constant `MSG_DONTROUTE`. -/
def MSG_DONTROUTE : Int := 4

/-- Linux constant `MSG_TRUNC`. -/
def MSG_TRUNC : Int := 32

/-- Linux constant `MSG_DONTWAIT`. -/
def MSG_DONTWAIT : Int := 64

/-- Linux constant `MSG_EOR`. -/
def MSG_EOR : Int := 128

/-- Linux constant `MSG_WAITALL`. -/
def MSG_WAITALL : Int := 256

/-- Linux constant `MSG_CONFIRM`. -/
def MSG_CONFIRM : Int := 2048

/-- Linux constant `MSG_ERRQUEUE`. -/
def MSG_ERRQUEUE : Int := 8192

/-- Linux constant `MSG_NOSIGNAL`. -/
def MSG_NOSIGNAL : Int := 16384

/-- Linux constant `MSG_MORE`. -/
def MSG_MORE : Int := 32768

/-- Linux constant `SOCK_STREAM`. -/
def SOCK_STREAM : Int := 1

/-- Linux constant `SOCK_DGRAM`. -/
def SOCK_DGRAM : Int := 2

/-- Linux constant `SOCK_SEQPACKET`. -/
def SOCK_SEQPACKET : Int := 5

/-- Linux constant `AF_UNIX`. -/
def AF_UNIX : Int := 1

/-- Linux constant `AF_INET`. -/
def AF_INET : Int := 2

/-- Linux constant `AF_INET6`. -/
def AF_INET6 : Int := 10

/-- Modelled from the spec: `ESocketDomain` is declared in `Kraken/IO/Address.h`,
which is not under `src/`.  The spec (§1, §3) names exactly three domains:
local-IPC (Unix), IPv4 and IPv6. -/
inductive ESocketDomain
  | Unix
  | IPv4
  | IPv6
deriving DecidableEq, Repr

/-- The numeric address-family value `(int)D` passed to `socket(2)` /
`socketpair(2)`. -/
def ESocketDomain.toInt : ESocketDomain → Int
  | .Unix => AF_UNIX
  | .IPv4 => AF_INET
  | .IPv6 => AF_INET6

/-- `enum class ESocketType` (Socket.h lines 39-44): the communication types,
with their `SOCK_*` values. -/
inductive ESocketType
  | Datagram
  | SeqPacket
  | Stream
deriving DecidableEq, Repr

/-- The numeric value of each `ESocketType` enumerator, as in Socket.h. -/
def ESocketType.toInt : ESocketType → Int
  | .Datagram => SOCK_DGRAM
  | .SeqPacket => SOCK_SEQPACKET
  | .Stream => SOCK_STREAM

namespace ESendFlags

/-- `ESendFlags::None = 0` (Socket.h line 48). -/
def None : Int := 0

/-- `ESendFlags::Confirm = MSG_CONFIRM` (Socket.h line 49). -/
def Confirm : Int := MSG_CONFIRM

/-- `ESendFlags::DoNotRoute = MSG_DONTROUTE` (Socket.h line 50). -/
def DoNotRoute : Int := MSG_DONTROUTE

/-- `ESendFlags::DoNotWait = MSG_DONTWAIT` (Socket.h line 51). -/
def DoNotWait : Int := MSG_DONTWAIT

/-- `ESendFlags::EndOfRecord = MSG_EOR` (Socket.h line 52). -/
def EndOfRecord : Int := MSG_EOR

/-- `ESendFlags::More = MSG_MORE` (Socket.h line 53). -/
def More : Int := MSG_MORE

/-- `ESendFlags::NoSignal = MSG_NOSIGNAL` (Socket.h line 54). -/
def NoSignal : Int := MSG_NOSIGNAL

/-- `ESendFlags::OutOfBand = MSG_OOB` (Socket.h line 55). -/
def OutOfBand : Int := MSG_OOB

/-- `ESendFlags::NonBlock = DoNotWait` (Socket.h line 58). -/
def NonBlock : Int := DoNotWait

end ESendFlags

namespace EReceiveFlags

/-- `EReceiveFlags::None = 0` (Socket.h line 63). -/
def None : Int := 0

/-- `EReceiveFlags::DoNotWait = MSG_DONTWAIT` (Socket.h line 64). -/
def DoNotWait : Int := MSG_DONTWAIT

/-- `EReceiveFlags::MSG_ERRQUEUE` (Socket.h line 65).  In the C++ source this
enumerator carries NO initializer.  glibc declares the `MSG_*` constants as
enumerators together with self-referential macros (`#define MSG_ERRQUEUE
MSG_ERRQUEUE`), so inside `enum class EReceiveFlags` the token declares a NEW
scoped enumerator whose value, per C++ enum rules, is the previous
enumerator's value plus one: `MSG_DONTWAIT + 1 = 65`, not the OS constant
`0x2000`. -/
def MSG_ERRQUEUE : Int := DoNotWait + 1

/-- `EReceiveFlags::MSG_OOB` (Socket.h line 66): no initializer, previous + 1. -/
def MSG_OOB : Int := MSG_ERRQUEUE + 1

/-- `EReceiveFlags::MSG_PEEK` (Socket.h line 67): no initializer, previous + 1. -/
def MSG_PEEK : Int := MSG_OOB + 1

/-- `EReceiveFlags::MSG_TRUNC` (Socket.h line 68): no initializer, previous + 1. -/
def MSG_TRUNC : Int := MSG_PEEK + 1

/-- `EReceiveFlags::MSG_WAITALL` (Socket.h line 69): no initializer, previous + 1. -/
def MSG_WAITALL : Int := MSG_TRUNC + 1

/-- `EReceiveFlags::NonBlock = DoNotWait` (Socket.h line 72). -/
def NonBlock : Int := DoNotWait

end EReceiveFlags

/-- Modelled from the spec: `Address<D>` is declared in `Kraken/IO/Address.h`,
which is not under `src/`.  Per the consumed contract (§4.2, §6) it is an
opaque per-domain blob exposing a logical length (`GetLength`), a mutator
recording a kernel-reported length (`SetLength`), a capacity constant
(`s_MaxSize`) and a domain-specific validity predicate (`IsValid`).  The byte
contents are never interpreted by the core, so the model keeps only the
logical length and the value of the validity predicate. -/
structure Address (D : ESocketDomain) where
  length : Int
  valid : Bool
deriving DecidableEq, Repr

/-- Modelled from the spec: the per-domain capacity constant
`Address<D>::s_MaxSize` — the size of the domain's maximum endpoint
representation (`sizeof(sockaddr_un)` / `sizeof(sockaddr_in)` /
`sizeof(sockaddr_in6)` on Linux). -/
def Address.s_MaxSize (D : ESocketDomain) : Int :=
  match D with
  | .Unix => 110
  | .IPv4 => 16
  | .IPv6 => 28

/-- `Address<D>::IsValid()` — domain-specific predicate, opaque to the core. -/
def Address.IsValid {D : ESocketDomain} (a : Address D) : Bool := a.valid

/-- `Address<D>::GetLength()` — the declared logical length. -/
def Address.GetLength {D : ESocketDomain} (a : Address D) : Int := a.length

/-- `Address<D>::SetLength(len)` — records a kernel-reported length
(modelled from the spec contract §6: a plain recording mutator). -/
def Address.SetLength {D : ESocketDomain} (a : Address D) (len : Int) : Address D :=
  { a with length := len }

/-- Trace of system calls an operation actually issued.  The four
data-transfer calls record the `(int)flags` argument handed to the OS. -/
inductive Sys
  | socket
  | bind
  | listen
  | connect
  | accept
  | shutdown
  | close
  | socketpair
  | send (flags : Int)
  | sendto (flags : Int)
  | recv (flags : Int)
  | recvfrom (flags : Int)
deriving DecidableEq, Repr

/-- OS oracle: outcome of one system call that returns an `int` and sets
`errno` on failure. -/
structure OSCall where
  ret : Int
  errno : Int
deriving DecidableEq, Repr

/-- OS oracle: outcome of a call that additionally writes an address length
out-parameter (`accept(2)`, `recvfrom(2)`): `addrlen` is the value the kernel
stores into the `socklen_t` the caller passed by pointer. -/
structure OSAddrCall where
  ret : Int
  errno : Int
  addrlen : Int
deriving DecidableEq, Repr

/-- OS oracle: outcome of `socketpair(2)`: on success (`ret = 0`) the kernel
writes the two mutually connected, freshly created descriptors `fd0`, `fd1`
into the caller's array. -/
structure OSPairCall where
  ret : Int
  errno : Int
  fd0 : Int
  fd1 : Int
deriving DecidableEq, Repr

/-- `Socket<D>` (Socket.h line 87), which inherits `File`.  Modelled from the
spec for the `File` part: `Kraken/IO/File.h` is not under `src/`; per §4.1/§6
the descriptor resource owns at most one OS handle, exposes `IsOpen()` and an
idempotent `Close()`, and a descriptor is present iff the socket is in a
non-closed phase — hence `m_descriptor : Option Int`, `none` meaning closed. -/
structure Socket (D : ESocketDomain) where
  m_descriptor : Option Int
deriving DecidableEq, Repr

/-- `File::IsOpen()` — modelled from the spec: true iff a descriptor is held. -/
def Socket.IsOpen {D : ESocketDomain} (s : Socket D) : Bool :=
  s.m_descriptor.isSome

/-- `File::Close()` — modelled from the spec: idempotently releases the
descriptor. -/
def Socket.Close {D : ESocketDomain} (s : Socket D) : Socket D :=
  { s with m_descriptor := none }

/-- A C object pointer; `none` models `nullptr`. -/
abbrev Ptr := Option Int

/-- Modelled from the spec: `membuf` (from Kraken's utility headers, not under
`src/`) pairs a buffer pointer with its length. -/
structure membuf where
  buffer : Ptr
  length : Int
deriving DecidableEq, Repr

/-- Modelled from the spec: `const_membuf`, the read-only counterpart of
`membuf`. -/
structure const_membuf where
  buffer : Ptr
  length : Int
deriving DecidableEq, Repr

/-- `Socket<D>::Open(type)` (Socket.h lines 116-134): `-EBUSY` if already
open; otherwise calls `socket(2)`; on failure `-errno`, on success stores the
new descriptor and returns `0`. -/
def Socket.Open {D : ESocketDomain} (s : Socket D) (type : ESocketType)
    (os : OSCall) : Int × Socket D × List Sys :=
  if s.IsOpen then (-EBUSY, s, [])
  else if os.ret < 0 then (-os.errno, s, [Sys.socket])
  else (0, { s with m_descriptor := some os.ret }, [Sys.socket])

/-- `Socket<D>::Bind(localAddress)` (Socket.h lines 142-160): `-EINVAL` if the
address is invalid (the diagnostic print on line 155 references an undefined
name `res` and is modelled as a no-op); otherwise calls `bind(2)`; `-errno`
if its return is nonzero, else `0`. -/
def Socket.Bind {D : ESocketDomain} (s : Socket D) (localAddress : Address D)
    (os : OSCall) : Int × List Sys :=
  if !localAddress.IsValid then (-EINVAL, [])
  else if os.ret ≠ 0 then (-os.errno, [Sys.bind])
  else (0, [Sys.bind])

/-- `Socket<D>::Listen(backlog)` (Socket.h lines 168-177): unconditionally
calls `listen(2)` on the stored descriptor; if its return is negative the
result becomes `-errno`, otherwise the OS return is handed back as-is. -/
def Socket.Listen {D : ESocketDomain} (s : Socket D) (backlog : Int)
    (os : OSCall) : Int × List Sys :=
  (if os.ret < 0 then -os.errno else os.ret, [Sys.listen])

/-- `Socket<D>::Connect(remoteAddress)` (Socket.h lines 187-199):
unconditionally calls `connect(2)`; `-errno` if its return is nonzero, else
`0`. -/
def Socket.Connect {D : ESocketDomain} (s : Socket D)
    (remoteAddress : Address D) (os : OSCall) : Int × List Sys :=
  (if os.ret ≠ 0 then -os.errno else 0, [Sys.connect])

/-- `Socket<D>::Accept(o_client, o_clientAddress)` (Socket.h lines 224-244):
`-EBUSY` if the target is already open; otherwise calls `accept(2)` with
`addressLength` initialized to `s_MaxSize`; on failure `-errno`; on success
records the kernel-written `addressLength` into the address, hands the new
descriptor to `o_client` and returns `0`.  Returns
(result, o_client, o_clientAddress, trace). -/
def Socket.Accept {D : ESocketDomain} (s : Socket D) (o_client : Socket D)
    (o_clientAddress : Address D) (os : OSAddrCall) :
    Int × Socket D × Address D × List Sys :=
  if o_client.IsOpen then (-EBUSY, o_client, o_clientAddress, [])
  else if os.ret < 0 then (-os.errno, o_client, o_clientAddress, [Sys.accept])
  else (0, { o_client with m_descriptor := some os.ret },
        o_clientAddress.SetLength os.addrlen, [Sys.accept])

/-- `Socket<D>::Accept(o_client)` (Socket.h lines 209-213): delegates to the
two-argument overload with a default-constructed address
(`wastefulImplementationDetail`) that is then discarded. -/
def Socket.Accept1 {D : ESocketDomain} (s : Socket D) (o_client : Socket D)
    (os : OSAddrCall) : Int × Socket D × List Sys :=
  let wastefulImplementationDetail : Address D := { length := 0, valid := false }
  let r := s.Accept o_client wastefulImplementationDetail os
  (r.1, r.2.1, r.2.2.2)

/-- `Socket<D>::Send(buffer, length, flags)` (Socket.h lines 256-272):
`-EINVAL` on a null buffer without any system call; otherwise calls
`send(2)`, mapping a negative return to `-errno`. -/
def Socket.Send {D : ESocketDomain} (s : Socket D) (buffer : Ptr)
    (length : Int) (flags : Int) (os : OSCall) : Int × List Sys :=
  if buffer = none then (-EINVAL, [])
  else (if os.ret < 0 then -os.errno else os.ret, [Sys.send flags])

/-- `Socket<D>::Send(buffer, length, destination, flags)` (Socket.h lines
283-299): `-EINVAL` on a null buffer; otherwise calls `sendto(2)`. -/
def Socket.SendTo {D : ESocketDomain} (s : Socket D) (buffer : Ptr)
    (length : Int) (destination : Address D) (flags : Int) (os : OSCall) :
    Int × List Sys :=
  if buffer = none then (-EINVAL, [])
  else (if os.ret < 0 then -os.errno else os.ret, [Sys.sendto flags])

/-- `Socket<D>::Receive(o_buffer, length, flags)` (Socket.h lines 309-325):
`-EINVAL` on a null buffer; otherwise calls `recv(2)`. -/
def Socket.Receive {D : ESocketDomain} (s : Socket D) (o_buffer : Ptr)
    (length : Int) (flags : Int) (os : OSCall) : Int × List Sys :=
  if o_buffer = none then (-EINVAL, [])
  else (if os.ret < 0 then -os.errno else os.ret, [Sys.recv flags])

/-- `Socket<D>::Receive(o_buffer, length, o_senderAddress, flags)` (Socket.h
lines 336-354): `-EINVAL` on a null buffer; otherwise calls `recvfrom(2)`
with `addressLength` initialized to `s_MaxSize`; on failure `-errno`; on
success records the kernel-written `addressLength` into the sender address
and returns the byte count.  Returns (result, o_senderAddress, trace). -/
def Socket.ReceiveFrom {D : ESocketDomain} (s : Socket D) (o_buffer : Ptr)
    (length : Int) (o_senderAddress : Address D) (flags : Int)
    (os : OSAddrCall) : Int × Address D × List Sys :=
  if o_buffer = none then (-EINVAL, o_senderAddress, [])
  else if os.ret < 0 then (-os.errno, o_senderAddress, [Sys.recvfrom flags])
  else (os.ret, o_senderAddress.SetLength os.addrlen, [Sys.recvfrom flags])

/-- `Socket<D>::Send(const_membuf, flags)` (Socket.h lines 365-368):
delegates to `Send(mem.buffer, mem.length, flags)`. -/
def Socket.SendM {D : ESocketDomain} (s : Socket D) (mem : const_membuf)
    (flags : Int) (os : OSCall) : Int × List Sys :=
  s.Send mem.buffer mem.length flags os

/-- `Socket<D>::Send(const_membuf, destination, flags)` (Socket.h lines
378-381): delegates to the addressed `Send`. -/
def Socket.SendToM {D : ESocketDomain} (s : Socket D) (mem : const_membuf)
    (destination : Address D) (flags : Int) (os : OSCall) : Int × List Sys :=
  s.SendTo mem.buffer mem.length destination flags os

/-- `Socket<D>::Receive(membuf, flags)` (Socket.h lines 390-393): delegates
to `Receive(o_mem.buffer, o_mem.length, flags)`. -/
def Socket.ReceiveM {D : ESocketDomain} (s : Socket D) (o_mem : membuf)
    (flags : Int) (os : OSCall) : Int × List Sys :=
  s.Receive o_mem.buffer o_mem.length flags os

/-- `Socket<D>::Receive(membuf, o_senderAddress, flags)` (Socket.h lines
403-406): delegates to the sender-reporting `Receive`. -/
def Socket.ReceiveFromM {D : ESocketDomain} (s : Socket D) (o_mem : membuf)
    (o_senderAddress : Address D) (flags : Int) (os : OSAddrCall) :
    Int × Address D × List Sys :=
  s.ReceiveFrom o_mem.buffer o_mem.length o_senderAddress flags os

/-- `Socket<D>::Shutdown()` (Socket.h lines 104-108): unconditionally calls
`shutdown(m_descriptor, SHUT_RDWR)` and then `Close()`. -/
def Socket.Shutdown {D : ESocketDomain} (s : Socket D) : Socket D × List Sys :=
  (s.Close, [Sys.shutdown, Sys.close])

/-- `Socket<D>::~Socket()` (Socket.h lines 91-97): calls `Shutdown()` iff the
socket is still open.  Returns the final state, the number of `Shutdown`
invocations, and the trace. -/
def Socket.destructor {D : ESocketDomain} (s : Socket D) :
    Socket D × Nat × List Sys :=
  if s.IsOpen then ((s.Shutdown).1, 1, (s.Shutdown).2) else (s, 0, [])

/-- `Socket<D>::Pair(type, o_socket1, o_socket2)` (Socket.h lines 417-437):
`-EBUSY` if either target is open; otherwise calls `socketpair(2)`; on a
nonzero return yields `-errno` leaving both targets untouched; on success
assigns `fds[0]` to the first and `fds[1]` to the second and returns `0`.
Returns (result, o_socket1, o_socket2, trace). -/
def Socket.Pair {D : ESocketDomain} (type : ESocketType)
    (o_socket1 o_socket2 : Socket D) (os : OSPairCall) :
    Int × Socket D × Socket D × List Sys :=
  if o_socket1.IsOpen || o_socket2.IsOpen then (-EBUSY, o_socket1, o_socket2, [])
  else if os.ret ≠ 0 then (-os.errno, o_socket1, o_socket2, [Sys.socketpair])
  else (0, { o_socket1 with m_descriptor := some os.fd0 },
        { o_socket2 with m_descriptor := some os.fd1 }, [Sys.socketpair])

/-- `using UnixSocket = Socket<ESocketDomain::Unix>` (Socket.h line 441). -/
abbrev UnixSocket := Socket ESocketDomain.Unix

/-- `using IPv4Socket = Socket<ESocketDomain::IPv4>` (Socket.h line 442). -/
abbrev IPv4Socket := Socket ESocketDomain.IPv4

/-- `using IPv6Socket = Socket<ESocketDomain::IPv6>` (Socket.h line 443). -/
abbrev IPv6Socket := Socket ESocketDomain.IPv6

/-- Claim C1: for every domain `D` and every socket that is already open,
`Open(type)` returns `-EBUSY`, leaves the socket's descriptor unchanged, and
acquires no new descriptor (no `socket(2)` call is issued). -/
theorem open_on_open_socket_is_busy {D : ESocketDomain} (s : Socket D)
    (type : ESocketType) (os : OSCall) (h : s.IsOpen = true) :
    (s.Open type os).1 = -EBUSY ∧ (s.Open type os).2.1 = s ∧
    (s.Open type os).2.2 = [] := by
  simp [Socket.Open, h]

/-- Witness for C1: a concrete open IPv4 socket, reopened. -/
theorem open_on_open_socket_is_busy_witness :
    ((⟨some 3⟩ : IPv4Socket).Open ESocketType.Stream ⟨4, 0⟩).1 = -EBUSY ∧
    ((⟨some 3⟩ : IPv4Socket).Open ESocketType.Stream ⟨4, 0⟩).2.1 = ⟨some 3⟩ ∧
    ((⟨some 3⟩ : IPv4Socket).Open ESocketType.Stream ⟨4, 0⟩).2.2 = [] :=
  open_on_open_socket_is_busy ⟨some 3⟩ ESocketType.Stream ⟨4, 0⟩ rfl

/-- Claim C2: for every domain `D`, `Accept` with a target client socket that
is already open returns `-EBUSY`, leaves the target's descriptor unchanged and
(in the two-argument form) the address out-parameter unmodified, and issues no
`accept(2)` call; likewise for the one-argument form. -/
theorem accept_into_open_target_is_busy {D : ESocketDomain}
    (s o_client : Socket D) (o_clientAddress : Address D) (os : OSAddrCall)
    (h : o_client.IsOpen = true) :
    s.Accept o_client o_clientAddress os = (-EBUSY, o_client, o_clientAddress, []) ∧
    s.Accept1 o_client os = (-EBUSY, o_client, []) := by
  simp [Socket.Accept, Socket.Accept1, h]

/-- Witness for C2: a concrete listening Unix socket accepting into an
already-open target. -/
theorem accept_into_open_target_is_busy_witness :
    (⟨some 3⟩ : UnixSocket).Accept ⟨some 7⟩ ⟨5, true⟩ ⟨8, 0, 12⟩
      = (-EBUSY, ⟨some 7⟩, ⟨5, true⟩, []) ∧
    (⟨some 3⟩ : UnixSocket).Accept1 ⟨some 7⟩ ⟨8, 0, 12⟩ = (-EBUSY, ⟨some 7⟩, []) :=
  accept_into_open_target_is_busy ⟨some 3⟩ ⟨some 7⟩ ⟨5, true⟩ ⟨8, 0, 12⟩ rfl

/-- Claim C3: for every socket state, length and flag combination, every
`Send` overload and every `Receive` overload called with a null buffer
returns `-EINVAL` with an empty system-call trace (no `send` / `sendto` /
`recv` / `recvfrom` is invoked) and leaves the sender-address out-parameter
unmodified. -/
theorem null_buffer_returns_einval {D : ESocketDomain} (s : Socket D)
    (length flags : Int) (destination o_senderAddress : Address D)
    (os : OSCall) (osa : OSAddrCall) :
    s.Send none length flags os = (-EINVAL, []) ∧
    s.SendTo none length destination flags os = (-EINVAL, []) ∧
    s.Receive none length flags os = (-EINVAL, []) ∧
    s.ReceiveFrom none length o_senderAddress flags osa
      = (-EINVAL, o_senderAddress, []) ∧
    s.SendM ⟨none, length⟩ flags os = (-EINVAL, []) ∧
    s.SendToM ⟨none, length⟩ destination flags os = (-EINVAL, []) ∧
    s.ReceiveM ⟨none, length⟩ flags os = (-EINVAL, []) ∧
    s.ReceiveFromM ⟨none, length⟩ o_senderAddress flags osa
      = (-EINVAL, o_senderAddress, []) := by
  simp [Socket.Send, Socket.SendTo, Socket.Receive, Socket.ReceiveFrom,
    Socket.SendM, Socket.SendToM, Socket.ReceiveM, Socket.ReceiveFromM]

/-- Counterexample for C4: a successful `Accept` on a Unix socket where the
kernel reports an address length of `111` (Linux reports the full, possibly
truncated length, which may exceed the supplied capacity).  The code records
`111` via `SetLength` without clamping, exceeding
`Address<Unix>::s_MaxSize = 110`, so the recorded length is NOT the
kernel-reported value clamped to the capacity. -/
theorem accept_records_unclamped_length :
    ((⟨some 3⟩ : UnixSocket).Accept ⟨none⟩ ⟨0, true⟩ ⟨4, 0, 111⟩).1 = 0 ∧
    ((⟨some 3⟩ : UnixSocket).Accept ⟨none⟩ ⟨0, true⟩ ⟨4, 0, 111⟩).2.2.1.GetLength = 111 ∧
    ¬ ((⟨some 3⟩ : UnixSocket).Accept ⟨none⟩ ⟨0, true⟩ ⟨4, 0, 111⟩).2.2.1.GetLength
        ≤ Address.s_MaxSize ESocketDomain.Unix := by
  decide

/-- Claim C4 as amended: on every successful `Accept`-with-address or
`Receive`-with-sender, the length recorded into the address out-parameter via
`SetLength` is exactly the kernel-reported value, with no clamping; it stays
within `Address<D>::s_MaxSize` exactly when the kernel reports at most
`s_MaxSize`. -/
theorem success_records_kernel_reported_length {D : ESocketDomain}
    (s o_client : Socket D) (a o_senderAddress : Address D)
    (buf len flags : Int) (os osr : OSAddrCall)
    (hclient : o_client.IsOpen = false) (hok : 0 ≤ os.ret) (hrok : 0 ≤ osr.ret) :
    (s.Accept o_client a os).2.2.1.GetLength = os.addrlen ∧
    (s.ReceiveFrom (some buf) len o_senderAddress flags osr).2.1.GetLength
      = osr.addrlen ∧
    (os.addrlen ≤ Address.s_MaxSize D →
      (s.Accept o_client a os).2.2.1.GetLength ≤ Address.s_MaxSize D) := by
  have h1 : ¬ os.ret < 0 := not_lt.mpr hok
  have h2 : ¬ osr.ret < 0 := not_lt.mpr hrok
  refine ⟨?_, ?_, ?_⟩ <;>
    simp [Socket.Accept, Socket.ReceiveFrom, Address.SetLength,
      Address.GetLength, hclient, h1, h2]

/-- Witness for the amended C4: a concrete successful accept and receive on
an IPv4 socket, with the kernel reporting length 16. -/
theorem success_records_kernel_reported_length_witness :
    ((⟨some 3⟩ : IPv4Socket).Accept ⟨none⟩ ⟨0, true⟩ ⟨4, 0, 16⟩).2.2.1.GetLength = 16 ∧
    ((⟨some 3⟩ : IPv4Socket).ReceiveFrom (some 100) 8 ⟨0, true⟩ 0 ⟨5, 0, 16⟩).2.1.GetLength = 16 ∧
    ((16 : Int) ≤ Address.s_MaxSize ESocketDomain.IPv4 →
      ((⟨some 3⟩ : IPv4Socket).Accept ⟨none⟩ ⟨0, true⟩ ⟨4, 0, 16⟩).2.2.1.GetLength
        ≤ Address.s_MaxSize ESocketDomain.IPv4) :=
  success_records_kernel_reported_length ⟨some 3⟩ ⟨none⟩ ⟨0, true⟩ ⟨0, true⟩
    100 8 0 ⟨4, 0, 16⟩ ⟨5, 0, 16⟩ rfl (by decide) (by decide)

/-- Claim C5, the code evaluated at its failing inputs: every `ESendFlags`
enumerator does carry the value of the corresponding OS constant, and
`NonBlock` equals the non-blocking flag's value in both sets; but the
`EReceiveFlags` enumerators named after the `MSG_*` constants were declared
without initializers, so C++ assigns them the sequential values 65..69
(`MSG_DONTWAIT + 1`, ...) instead of the OS values — e.g. the
error-queue-read flag is 65 while `MSG_ERRQUEUE = 8192`, and peek is 67 while
`MSG_PEEK = 2` — so those receive flags do NOT reach the underlying call as
the OS flags they name. -/
theorem receive_flag_values_diverge_from_os :
    (ESendFlags.Confirm = MSG_CONFIRM ∧ ESendFlags.DoNotRoute = MSG_DONTROUTE ∧
     ESendFlags.DoNotWait = MSG_DONTWAIT ∧ ESendFlags.EndOfRecord = MSG_EOR ∧
     ESendFlags.More = MSG_MORE ∧ ESendFlags.NoSignal = MSG_NOSIGNAL ∧
     ESendFlags.OutOfBand = MSG_OOB ∧ ESendFlags.NonBlock = MSG_DONTWAIT) ∧
    (EReceiveFlags.DoNotWait = MSG_DONTWAIT ∧
     EReceiveFlags.NonBlock = MSG_DONTWAIT) ∧
    (EReceiveFlags.MSG_ERRQUEUE = 65 ∧ EReceiveFlags.MSG_OOB = 66 ∧
     EReceiveFlags.MSG_PEEK = 67 ∧ EReceiveFlags.MSG_TRUNC = 68 ∧
     EReceiveFlags.MSG_WAITALL = 69) ∧
    (EReceiveFlags.MSG_ERRQUEUE ≠ MSG_ERRQUEUE ∧
     EReceiveFlags.MSG_OOB ≠ MSG_OOB ∧
     EReceiveFlags.MSG_PEEK ≠ MSG_PEEK ∧
     EReceiveFlags.MSG_TRUNC ≠ MSG_TRUNC ∧
     EReceiveFlags.MSG_WAITALL ≠ MSG_WAITALL) := by
  decide

/-- Claim C6: `Bind` with an invalid address returns `-EINVAL` without
issuing the OS `bind` call; with a valid address it issues `bind(2)` and
returns `0` on OS success or the negated OS error on failure. -/
theorem bind_validity_gate {D : ESocketDomain} (s : Socket D)
    (localAddress : Address D) (os : OSCall) :
    (localAddress.IsValid = false → s.Bind localAddress os = (-EINVAL, [])) ∧
    (localAddress.IsValid = true → os.ret = 0 →
      s.Bind localAddress os = (0, [Sys.bind])) ∧
    (localAddress.IsValid = true → os.ret ≠ 0 →
      s.Bind localAddress os = (-os.errno, [Sys.bind])) := by
  exact ⟨fun h => by simp [Socket.Bind, h],
    fun h h0 => by simp [Socket.Bind, h, h0],
    fun h h0 => by simp [Socket.Bind, h, h0]⟩

/-- Witness for C6: all three branches at concrete inputs — an invalid
address, a valid address with OS success, and a valid address with OS failure
(`errno = 13`, EACCES). -/
theorem bind_validity_gate_witness :
    (⟨some 3⟩ : IPv4Socket).Bind ⟨16, false⟩ ⟨0, 0⟩ = (-EINVAL, []) ∧
    (⟨some 3⟩ : IPv4Socket).Bind ⟨16, true⟩ ⟨0, 0⟩ = (0, [Sys.bind]) ∧
    (⟨some 3⟩ : IPv4Socket).Bind ⟨16, true⟩ ⟨-1, 13⟩ = (-13, [Sys.bind]) :=
  ⟨(bind_validity_gate ⟨some 3⟩ ⟨16, false⟩ ⟨0, 0⟩).1 rfl,
   (bind_validity_gate ⟨some 3⟩ ⟨16, true⟩ ⟨0, 0⟩).2.1 rfl rfl,
   (bind_validity_gate ⟨some 3⟩ ⟨16, true⟩ ⟨-1, 13⟩).2.2 rfl (by decide)⟩

/-- Claim C7: `Shutdown()` performs the bidirectional `shutdown(2)` then
releases the descriptor, so afterwards `IsOpen() = false`; on an
already-closed socket it leaves the state unchanged (idempotent in effect at
the resource level); and the destructor invokes `Shutdown` exactly once iff
the socket is still open, always ending closed (no descriptor leak on scope
exit). -/
theorem shutdown_closes_and_destructor_releases {D : ESocketDomain}
    (s : Socket D) :
    (s.Shutdown).1.IsOpen = false ∧
    (s.IsOpen = false → (s.Shutdown).1 = s) ∧
    (s.destructor).2.1 = (if s.IsOpen then 1 else 0) ∧
    (s.destructor).1.IsOpen = false := by
  obtain ⟨d⟩ := s
  refine ⟨rfl, fun h => ?_, ?_, ?_⟩
  · cases d with
    | none => rfl
    | some fd => simp [Socket.IsOpen] at h
  · cases d <;> simp [Socket.destructor, Socket.IsOpen]
  · cases d <;>
      simp [Socket.destructor, Socket.IsOpen, Socket.Shutdown, Socket.Close]

/-- Witness for C7: on a concrete closed IPv6 socket, `Shutdown` leaves the
state unchanged. -/
theorem shutdown_closes_and_destructor_releases_witness :
    ((⟨none⟩ : IPv6Socket).Shutdown).1 = ⟨none⟩ :=
  (shutdown_closes_and_destructor_releases (⟨none⟩ : IPv6Socket)).2.1 rfl

/-- Claim C8: for every domain `D` and type `T`, `Pair(T, s1, s2)` returns
`-EBUSY` (touching neither target) if either output socket is already open;
when both are closed and `socketpair(2)` succeeds, it returns `0` and assigns
the first of the two freshly created, mutually connected descriptors the OS
produced to the first output and the second to the second. -/
theorem pair_busy_gate_and_assignment {D : ESocketDomain}
    (type : ESocketType) (s1 s2 : Socket D) (os : OSPairCall) :
    ((s1.IsOpen = true ∨ s2.IsOpen = true) →
      Socket.Pair type s1 s2 os = (-EBUSY, s1, s2, [])) ∧
    (s1.IsOpen = false → s2.IsOpen = false → os.ret = 0 →
      Socket.Pair type s1 s2 os
        = (0, ⟨some os.fd0⟩, ⟨some os.fd1⟩, [Sys.socketpair])) := by
  constructor
  · intro h
    rcases h with h | h <;> simp [Socket.Pair, h]
  · intro h1 h2 h0
    simp [Socket.Pair, h1, h2, h0]

/-- Witness for C8: a concrete busy case (first target open) and a concrete
successful pairing assigning descriptors 5 and 6. -/
theorem pair_busy_gate_and_assignment_witness :
    Socket.Pair ESocketType.SeqPacket (⟨some 3⟩ : UnixSocket) ⟨none⟩ ⟨0, 0, 5, 6⟩
      = (-EBUSY, ⟨some 3⟩, ⟨none⟩, []) ∧
    Socket.Pair ESocketType.SeqPacket (⟨none⟩ : UnixSocket) ⟨none⟩ ⟨0, 0, 5, 6⟩
      = (0, ⟨some 5⟩, ⟨some 6⟩, [Sys.socketpair]) :=
  ⟨(pair_busy_gate_and_assignment ESocketType.SeqPacket ⟨some 3⟩ ⟨none⟩
      ⟨0, 0, 5, 6⟩).1 (Or.inl rfl),
   (pair_busy_gate_and_assignment ESocketType.SeqPacket ⟨none⟩ ⟨none⟩
      ⟨0, 0, 5, 6⟩).2 rfl rfl rfl⟩

/-- Claim C9: if `socketpair(2)` fails, `Pair` returns the negated OS error
and modifies neither output socket — both remain exactly as passed in
(closed, descriptors unchanged). -/
theorem pair_error_atomicity {D : ESocketDomain} (type : ESocketType)
    (s1 s2 : Socket D) (os : OSPairCall) (h1 : s1.IsOpen = false)
    (h2 : s2.IsOpen = false) (hf : os.ret ≠ 0) :
    Socket.Pair type s1 s2 os = (-os.errno, s1, s2, [Sys.socketpair]) := by
  simp [Socket.Pair, h1, h2, hf]

/-- Witness for C9: a concrete failing `socketpair` (`errno = 24`, EMFILE)
leaves both concrete closed sockets untouched. -/
theorem pair_error_atomicity_witness :
    Socket.Pair ESocketType.Stream (⟨none⟩ : IPv4Socket) ⟨none⟩ ⟨-1, 24, 0, 0⟩
      = (-24, ⟨none⟩, ⟨none⟩, [Sys.socketpair]) :=
  pair_error_atomicity ESocketType.Stream ⟨none⟩ ⟨none⟩ ⟨-1, 24, 0, 0⟩ rfl rfl
    (by decide)

/-- Claim C10: `Listen` and `Connect` perform no local precondition check:
for every socket state (closed included) each issues its OS call exactly
once, and the result is determined solely by the OS outcome — `0` on OS
success and the negated OS error on failure — so neither ever produces a
local `-EBUSY` or `-EINVAL`. -/
theorem listen_connect_are_unconditional {D : ESocketDomain} (s : Socket D)
    (backlog : Int) (remoteAddress : Address D) (os : OSCall) :
    (s.Listen backlog os).2 = [Sys.listen] ∧
    (os.ret = 0 → (s.Listen backlog os).1 = 0) ∧
    (os.ret < 0 → (s.Listen backlog os).1 = -os.errno) ∧
    (s.Connect remoteAddress os).2 = [Sys.connect] ∧
    (os.ret = 0 → (s.Connect remoteAddress os).1 = 0) ∧
    (os.ret ≠ 0 → (s.Connect remoteAddress os).1 = -os.errno) := by
  refine ⟨rfl, fun h => ?_, fun h => ?_, rfl, fun h => ?_, fun h => ?_⟩ <;>
    simp [Socket.Listen, Socket.Connect, h]

/-- Witness for C10: a concrete closed IPv6 socket — no descriptor at all —
still issues `listen(2)` / `connect(2)` and reports the OS outcomes. -/
theorem listen_connect_are_unconditional_witness :
    ((⟨none⟩ : IPv6Socket).Listen 5 ⟨0, 0⟩).2 = [Sys.listen] ∧
    ((⟨none⟩ : IPv6Socket).Listen 5 ⟨0, 0⟩).1 = 0 ∧
    ((⟨none⟩ : IPv6Socket).Connect ⟨28, true⟩ ⟨-1, 9⟩).1 = -9 :=
  ⟨(listen_connect_are_unconditional (⟨none⟩ : IPv6Socket) 5 ⟨28, true⟩
      ⟨0, 0⟩).1,
   (listen_connect_are_unconditional (⟨none⟩ : IPv6Socket) 5 ⟨28, true⟩
      ⟨0, 0⟩).2.1 rfl,
   (listen_connect_are_unconditional (⟨none⟩ : IPv6Socket) 5 ⟨28, true⟩
      ⟨-1, 9⟩).2.2.2.2.2 (by decide)⟩

end Kraken
